import Mathlib

/-!
Verification of the promotion-detection and deduplication core of
SteamSalesBot (src/main.py), as a shallow embedding in Lean 4.

JSON objects coming from the Steam API are embedded as structures whose
fields are `Option`-typed, mirroring Python's `dict.get(key, default)`
access pattern; numeric JSON ids are embedded already rendered as the
decimal string produced by Python's `str(...)`.  The stateful
`SteamSalesBot` object becomes explicit state passing on `BotState`, and
the `try/except` around the network fetch is embedded by giving
`get_free_games` an `Option Snapshot` argument (`none` means the fetch
raised: network error, timeout, non-2xx from `raise_for_status`, or a
malformed body from `response.json()`).
-/

/-- Embeds one element of the `data['specials']['items']` array: the fields
`get_free_games` reads, each optional because the code uses `item.get`. -/
structure Item where
  id : Option String
  name : Option String
  discount_percent : Option Int
  final_price : Option Int
  original_price : Option Int
deriving DecidableEq

/-- Embeds the `data['specials']` object; `items` is absent when
`'items' in data['specials']` fails. -/
structure Specials where
  items : Option (List Item)
deriving DecidableEq

/-- Embeds the JSON document returned by the Steam featured-API; `specials`
is absent when `'specials' in data` fails. -/
structure Snapshot where
  specials : Option Specials
deriving DecidableEq

/-- Embeds one value of the persisted `"sent_games"` mapping:
`{"name": ..., "sent_at": ...}` as written by `mark_game_as_sent`. -/
structure SentRecord where
  name : String
  sent_at : String
deriving DecidableEq

/-- Embeds the persisted JSON store (`sent_games.json`).  Both top-level
keys are optional because the code reads them with `.get(key, default)`.
The `"sent_games"` mapping is an insertion-ordered association list, the
semantics of a Python `dict`. -/
structure Store where
  sent_games : Option (List (String × SentRecord))
  chat_ids : Option (List Int)
deriving DecidableEq

/-- Embeds the mutable state of a `SteamSalesBot` instance:
`self.sent_games` (the whole loaded document) and `self.chat_ids`
(a Python `set` of ints). -/
structure BotState where
  sent_games : Store
  chat_ids : Finset Int
deriving DecidableEq

/-- Embeds Python `d[k] = v` on an insertion-ordered dict: update the
existing slot in place if the key is present, otherwise append. -/
def dict_set (l : List (String × SentRecord)) (k : String) (v : SentRecord) :
    List (String × SentRecord) :=
  if l.any (fun p => p.1 == k) then
    l.map (fun p => if p.1 == k then (k, v) else p)
  else
    l ++ [(k, v)]

/-- Embeds `SteamSalesBot.load_sent_games`: return the parsed file, or the
empty document `{"sent_games": {}, "chat_ids": []}` when the file is
missing or any exception occurs (`file = none`). -/
def load_sent_games (file : Option Store) : Store :=
  match file with
  | some doc => doc
  | none => { sent_games := some [], chat_ids := some [] }

/-- Embeds `SteamSalesBot.__init__`: load the store, then build the
recipient set from `self.sent_games.get('chat_ids', [])`. -/
def init_state (file : Option Store) : BotState :=
  let s := load_sent_games file
  { sent_games := s, chat_ids := (s.chat_ids.getD []).toFinset }

/-- Embeds `SteamSalesBot.save_sent_games`: the document written to disk,
`{"sent_games": self.sent_games.get("sent_games", {}),
  "chat_ids": list(self.chat_ids)}`.  Python's `list(set)` enumerates the
set in an unspecified order; the embedding picks the ascending one. -/
def save_sent_games (b : BotState) : Store :=
  { sent_games := some (b.sent_games.sent_games.getD [])
    chat_ids := some (b.chat_ids.sort (fun a b => a ≤ b)) }

/-- Embeds `SteamSalesBot.add_chat_id`.  The returned `Bool` is the
`is_new_user` flag the code computes before inserting: it is the value
that gates the welcome-notification side effect, i.e. the "newly added"
report of the operation.  The state insert and the immediate
`save_sent_games` call follow. -/
def add_chat_id (b : BotState) (chat_id : Int) : Bool × BotState :=
  let is_new_user : Bool := decide (chat_id ∉ b.chat_ids)
  (is_new_user, { b with chat_ids := insert chat_id b.chat_ids })

/-- Embeds `SteamSalesBot.is_game_already_sent`:
`app_id in self.sent_games.get("sent_games", {})`. -/
def is_game_already_sent (b : BotState) (app_id : String) : Bool :=
  (b.sent_games.sent_games.getD []).any (fun p => p.1 == app_id)

/-- Embeds `SteamSalesBot.mark_game_as_sent`: ensure the `"sent_games"`
key exists, then assign
`self.sent_games["sent_games"][app_id] = {"name": ..., "sent_at": ...}`.
The timestamp `datetime.now(TIMEZONE).isoformat()` is passed in
explicitly as `now`. -/
def mark_game_as_sent (b : BotState) (app_id game_name now : String) :
    BotState :=
  let m := b.sent_games.sent_games.getD []
  { b with
      sent_games :=
        { b.sent_games with
            sent_games := some (dict_set m app_id ⟨game_name, now⟩) } }

/-- Embeds the static denylist `known_f2p_games` inside
`SteamSalesBot._verify_real_promotion`. -/
def known_f2p_games : List String :=
  ["730", "440", "570", "238960", "386360", "444090",
   "578080", "1222670", "359550", "252490"]

/-- Embeds `SteamSalesBot._verify_real_promotion`: reject exactly the ids
on the static denylist, accept everything else. -/
def verify_real_promotion (app_id : String) : Bool :=
  if app_id ∈ known_f2p_games then false else true

/-- Embeds one candidate dict appended to `free_games` by
`get_free_games`. -/
structure FreeGame where
  app_id : String
  name : String
  url : String
  initial_price : ℚ
deriving DecidableEq

/-- Embeds one iteration of the `for item in data['specials']['items']`
loop body of `get_free_games`: `some` exactly when the item is appended
to `free_games`, with the appended dict. -/
def free_game_of_item (b : BotState) (item : Item) : Option FreeGame :=
  let discount_percent := item.discount_percent.getD 0
  let final_price := item.final_price.getD 0
  let original_price := item.original_price.getD 0
  if discount_percent = 100 ∧ final_price = 0 ∧ original_price > 100 then
    let app_id := item.id.getD ""
    let name := item.name.getD ("Jeu " ++ app_id)
    let original_price_dollars : ℚ := (original_price : ℚ) / 100
    if app_id ≠ "" ∧ is_game_already_sent b app_id = false then
      if verify_real_promotion app_id then
        some
          { app_id := app_id
            name := name
            url := "https://store.steampowered.com/app/" ++ app_id ++ "/"
            initial_price := original_price_dollars }
      else none
    else none
  else none

/-- Embeds `SteamSalesBot.get_free_games`.  `fetch = none` is the
`except` branch (any fetch/parse failure): log and return `[]`.  On a
parsed document, the `'specials' in data and 'items' in data['specials']`
guard is the nested match; the loop is the `filterMap`.  The method
mutates nothing, so the returned state is the input state. -/
def get_free_games (fetch : Option Snapshot) (b : BotState) :
    List FreeGame × BotState :=
  match fetch with
  | none => ([], b)
  | some data =>
    match data.specials with
    | none => ([], b)
    | some sp =>
      match sp.items with
      | none => ([], b)
      | some items => (items.filterMap (free_game_of_item b), b)

/-- Ledger-touching operations a run sequence can interleave after a mark:
marking another game, registering a recipient, or running a check (which
reads but never writes the ledger). -/
inductive Op where
  | markSent (app_id game_name now : String)
  | addChat (chat_id : Int)
  | check (fetch : Option Snapshot)
deriving DecidableEq

/-- Applies one operation to the bot state. -/
def applyOp (b : BotState) : Op → BotState
  | Op.markSent a n t => mark_game_as_sent b a n t
  | Op.addChat c => (add_chat_id b c).2
  | Op.check fetch => (get_free_games fetch b).2

/-- Applies a sequence of operations left to right. -/
def applyOps (b : BotState) (ops : List Op) : BotState :=
  ops.foldl applyOp b

/-- Reads the ledger record stored for an identifier, if any. -/
def ledger_record (b : BotState) (app_id : String) : Option SentRecord :=
  ((b.sent_games.sent_games.getD []).find? (fun p => p.1 == app_id)).map
    Prod.snd

/-! Helper lemmas shared by the claim theorems. -/

/-- Fields of a produced candidate, read off the loop body. -/
theorem free_game_fields {b : BotState} {item : Item} {g : FreeGame}
    (h : free_game_of_item b item = some g) :
    g.app_id = item.id.getD "" ∧
    g.name = item.name.getD ("Jeu " ++ item.id.getD "") ∧
    g.url = "https://store.steampowered.com/app/" ++ item.id.getD "" ++ "/" ∧
    g.initial_price = (item.original_price.getD 0 : ℚ) / 100 := by
  simp only [free_game_of_item] at h
  split at h
  · split at h
    · split at h
      · obtain rfl := (Option.some_injective _ h).symm
        exact ⟨rfl, rfl, rfl, rfl⟩
      · exact absurd h (by simp)
    · exact absurd h (by simp)
  · exact absurd h (by simp)

/-- Conditions that must have held for a candidate to be produced. -/
theorem free_game_conditions {b : BotState} {item : Item} {g : FreeGame}
    (h : free_game_of_item b item = some g) :
    (item.discount_percent.getD 0 = 100 ∧ item.final_price.getD 0 = 0 ∧
      item.original_price.getD 0 > 100) ∧
    item.id.getD "" ≠ "" ∧
    is_game_already_sent b (item.id.getD "") = false ∧
    verify_real_promotion (item.id.getD "") = true := by
  simp only [free_game_of_item] at h
  split at h
  · split at h
    · split at h
      · rename_i hc hnew hv
        exact ⟨hc, hnew.1, hnew.2, hv⟩
      · exact absurd h (by simp)
    · exact absurd h (by simp)
  · exact absurd h (by simp)

/-- The state component of `get_free_games` is always the input state:
the method never mutates the ledger. -/
theorem get_free_games_state (fetch : Option Snapshot) (b : BotState) :
    (get_free_games fetch b).2 = b := by
  cases fetch with
  | none => rfl
  | some data =>
    obtain ⟨spo⟩ := data
    cases spo with
    | none => rfl
    | some sp =>
      obtain ⟨io⟩ := sp
      cases io <;> rfl

/-- An identifier present as a key of a dict stays present after any
`dict_set`. -/
theorem any_key_dict_set {l : List (String × SentRecord)} {id : String}
    (k : String) (v : SentRecord)
    (h : l.any (fun p => p.1 == id) = true) :
    (dict_set l k v).any (fun p => p.1 == id) = true := by
  unfold dict_set
  split
  · rw [List.any_eq_true] at h ⊢
    obtain ⟨p, hp, hpk⟩ := h
    by_cases hk : (p.1 == k) = true
    · refine ⟨(k, v), ?_, ?_⟩
      · have := List.mem_map_of_mem (fun p => if p.1 == k then (k, v) else p) hp
        simpa [hk] using this
      · have h1 : p.1 = id := by simpa using hpk
        have h2 : p.1 = k := by simpa using hk
        simp [← h2, h1]
    · refine ⟨p, ?_, hpk⟩
      have := List.mem_map_of_mem (fun p => if p.1 == k then (k, v) else p) hp
      simpa [hk] using this
  · rw [List.any_append, h, Bool.true_or]

/-- After `dict_set l k v`, the key `k` is present. -/
theorem dict_set_key_present (l : List (String × SentRecord)) (k : String)
    (v : SentRecord) :
    (dict_set l k v).any (fun p => p.1 == k) = true := by
  unfold dict_set
  split
  · rename_i h
    rw [List.any_eq_true] at h ⊢
    obtain ⟨p, hp, hpk⟩ := h
    refine ⟨(k, v), ?_, by simp⟩
    have := List.mem_map_of_mem (fun p => if p.1 == k then (k, v) else p) hp
    simpa [hpk] using this
  · rw [List.any_append]
    simp

/-- Marking a game makes `is_game_already_sent` true for it. -/
theorem is_sent_after_mark (b : BotState) (id game_name now : String) :
    is_game_already_sent (mark_game_as_sent b id game_name now) id = true := by
  simp only [is_game_already_sent, mark_game_as_sent, Option.getD_some]
  exact dict_set_key_present _ id ⟨game_name, now⟩

/-- No single operation ever removes an identifier from the ledger. -/
theorem is_sent_applyOp {b : BotState} {id : String} (op : Op)
    (h : is_game_already_sent b id = true) :
    is_game_already_sent (applyOp b op) id = true := by
  cases op with
  | markSent a n t =>
    simp only [applyOp, mark_game_as_sent, is_game_already_sent,
      Option.getD_some] at h ⊢
    exact any_key_dict_set a ⟨n, t⟩ h
  | addChat c => exact h
  | check fetch =>
    simpa only [applyOp, get_free_games_state] using h

/-- No sequence of operations ever removes an identifier from the
ledger. -/
theorem is_sent_applyOps {b : BotState} {id : String} (ops : List Op)
    (h : is_game_already_sent b id = true) :
    is_game_already_sent (applyOps b ops) id = true := by
  induction ops generalizing b with
  | nil => exact h
  | cons op ops ih => exact ih (is_sent_applyOp op h)

/-- Every candidate in a run's output comes from some item via the loop
body. -/
theorem mem_get_free_games {fetch : Option Snapshot} {b : BotState}
    {g : FreeGame} (hg : g ∈ (get_free_games fetch b).1) :
    ∃ item, free_game_of_item b item = some g := by
  cases fetch with
  | none => exact absurd hg (by simp [get_free_games])
  | some data =>
    obtain ⟨spo⟩ := data
    cases spo with
    | none => exact absurd hg (by simp [get_free_games])
    | some sp =>
      obtain ⟨io⟩ := sp
      cases io with
      | none => exact absurd hg (by simp [get_free_games])
      | some items =>
        simp only [get_free_games, List.mem_filterMap] at hg
        obtain ⟨item, _, hsome⟩ := hg
        exact ⟨item, hsome⟩

/-- The output identifiers form a sublist of the snapshot identifiers:
order is preserved, nothing is re-sorted. -/
theorem filterMap_ids_sublist (b : BotState) (items : List Item) :
    List.Sublist ((items.filterMap (free_game_of_item b)).map
        (fun g => g.app_id))
      (items.map (fun item => item.id.getD "")) := by
  induction items with
  | nil => simp
  | cons i is ih =>
    cases h : free_game_of_item b i with
    | none =>
      simp only [List.filterMap_cons, h, List.map_cons]
      exact ih.cons _
    | some g =>
      have hid := (free_game_fields h).1
      simp only [List.filterMap_cons, h, List.map_cons, hid]
      exact ih.cons₂ _

/-! Concrete inputs used by witnesses and counterexamples. -/

/-- A qualifying entry at the lower boundary plus one: original price 101
minor units. -/
def item_boundary101 : Item :=
  ⟨some "10", some "G101", some 100, some 0, some 101⟩

/-- An entry at the excluded boundary: original price exactly 100. -/
def item_boundary100 : Item :=
  ⟨some "11", some "G100", some 100, some 0, some 100⟩

/-- A deep-discount but not full-discount entry: 99 percent off. -/
def item_discount99 : Item :=
  ⟨some "12", some "G99", some 99, some 0, some 500⟩

/-- A qualifying entry with identifier 200 and original price 500. -/
def item200 : Item := ⟨some "200", some "G", some 100, some 0, some 500⟩

/-- A one-entry snapshot holding `item200`. -/
def snap200 : Snapshot := ⟨some ⟨some [item200]⟩⟩

/-- The candidate `get_free_games` produces for `item200` on a fresh
state: 500 minor units become 500 / 100 major units. -/
def game200 : FreeGame :=
  ⟨"200", "G", "https://store.steampowered.com/app/" ++ "200" ++ "/",
    ((500 : Int) : ℚ) / 100⟩

/-- A denylisted entry (CS2, id 730) that passes the numeric rule. -/
def item730 : Item :=
  ⟨some "730", some "Counter-Strike 2", some 100, some 0, some 999⟩

/-- C1: for an entry whose identifier is non-empty, not already notified
and not denylisted, the loop body of `get_free_games` produces a
candidate iff discount_percent = 100, final_price = 0 and
original_price > 100 minor units (exact equality, strict boundary). -/
theorem free_promotion_filter_iff (b : BotState) (item : Item)
    (h1 : item.id.getD "" ≠ "")
    (h2 : is_game_already_sent b (item.id.getD "") = false)
    (h3 : item.id.getD "" ∉ known_f2p_games) :
    (∃ g, free_game_of_item b item = some g) ↔
      (item.discount_percent.getD 0 = 100 ∧ item.final_price.getD 0 = 0 ∧
        item.original_price.getD 0 > 100) := by
  constructor
  · rintro ⟨g, hg⟩
    exact (free_game_conditions hg).1
  · rintro ⟨hd, hf, ho⟩
    have hv : verify_real_promotion (item.id.getD "") = true := by
      simp [verify_real_promotion, h3]
    refine ⟨⟨item.id.getD "", item.name.getD ("Jeu " ++ item.id.getD ""),
      "https://store.steampowered.com/app/" ++ item.id.getD "" ++ "/",
      (item.original_price.getD 0 : ℚ) / 100⟩, ?_⟩
    simp only [free_game_of_item]
    rw [if_pos ⟨hd, hf, ho⟩, if_pos ⟨h1, h2⟩, if_pos hv]

/-- C1 witness: on a fresh state, the 101-boundary entry yields a
candidate, while the 99-percent entry and the 100-boundary entry yield
none. -/
theorem free_promotion_filter_iff_witness :
    (∃ g, free_game_of_item (init_state none) item_boundary101 = some g) ∧
    free_game_of_item (init_state none) item_discount99 = none ∧
    free_game_of_item (init_state none) item_boundary100 = none := by
  refine ⟨?_, by decide, by decide⟩
  exact (free_promotion_filter_iff (init_state none) item_boundary101
    (by decide) (by decide) (by decide)).mpr (by decide)

/-- C7: a snapshot lacking a 'specials' section, or whose 'specials'
lacks an 'items' list, yields the empty candidate list and an unchanged
state (the guard returns the initialized empty list, no error path). -/
theorem missing_specials_empty (b : BotState) (snap : Snapshot)
    (h : snap.specials = none ∨
      ∃ sp, snap.specials = some sp ∧ sp.items = none) :
    get_free_games (some snap) b = ([], b) := by
  rcases h with h | ⟨sp, h1, h2⟩
  · simp [get_free_games, h]
  · simp [get_free_games, h1, h2]

/-- C7 witness: the concrete snapshot with no 'specials' key. -/
theorem missing_specials_empty_witness :
    get_free_games (some ⟨none⟩) (init_state none) =
      ([], init_state none) :=
  missing_specials_empty (init_state none) ⟨none⟩ (Or.inl rfl)

/-- C8: when the fetch raises (network error, timeout, non-2xx,
malformed body), `get_free_games` returns the empty list; and for every
fetch outcome the state — in particular the ledger — is unchanged, so
the exception never propagates and nothing is mutated. -/
theorem fetch_failure_empty (b : BotState) :
    get_free_games none b = ([], b) ∧
    ∀ fetch, (get_free_games fetch b).2 = b :=
  ⟨rfl, fun fetch => get_free_games_state fetch b⟩

/-- C10: an entry whose identifier is on the static denylist never
becomes a candidate, whatever its numeric fields and the ledger state. -/
theorem denylist_never_candidate (b : BotState) (item : Item)
    (h : item.id.getD "" ∈ known_f2p_games) :
    free_game_of_item b item = none := by
  have hv : verify_real_promotion (item.id.getD "") = false := by
    simp [verify_real_promotion, h]
  simp only [free_game_of_item, hv]
  split
  · split
    · rfl
    · rfl
  · rfl

/-- C10 witness: the CS2 entry (id 730) passes the numeric rule and is
unsent on a fresh state, yet produces no candidate. -/
theorem denylist_never_candidate_witness :
    free_game_of_item (init_state none) item730 = none :=
  denylist_never_candidate (init_state none) item730 (by decide)

/-- Overwriting an existing key leaves its (first) slot holding the new
value. -/
theorem find_map_overwrite (l : List (String × SentRecord)) (k : String)
    (v : SentRecord) (h : l.any (fun p => p.1 == k) = true) :
    (l.map (fun p => if p.1 == k then (k, v) else p)).find?
      (fun p => p.1 == k) = some (k, v) := by
  induction l with
  | nil => simp at h
  | cons p tl ih =>
    by_cases hpk : (p.1 == k) = true
    · simp only [List.map_cons, if_pos hpk]
      exact List.find?_cons_of_pos _ (by simp)
    · have htl : tl.any (fun q => q.1 == k) = true := by
        simp only [List.any_cons, (Bool.not_eq_true _).mp hpk,
          Bool.false_or] at h
        exact h
      simp only [List.map_cons, if_neg hpk]
      rw [show List.find? (fun q => q.1 == k)
            (p :: List.map (fun q => if q.1 == k then (k, v) else q) tl) =
          List.find? (fun q => q.1 == k)
            (List.map (fun q => if q.1 == k then (k, v) else q) tl) from
        List.find?_cons_of_neg _ hpk]
      exact ih htl

/-- Appending a fresh key makes it findable at the end. -/
theorem find_append_new (l : List (String × SentRecord)) (k : String)
    (v : SentRecord) (h : l.any (fun p => p.1 == k) = false) :
    (l ++ [(k, v)]).find? (fun p => p.1 == k) = some (k, v) := by
  induction l with
  | nil =>
    simp only [List.nil_append]
    exact List.find?_cons_of_pos _ (by simp)
  | cons p tl ih =>
    simp only [List.any_cons, Bool.or_eq_false_iff] at h
    have hp : ¬ ((p.1 == k) = true) := by simp [h.1]
    rw [List.cons_append,
      show List.find? (fun q => q.1 == k) (p :: (tl ++ [(k, v)])) =
        List.find? (fun q => q.1 == k) (tl ++ [(k, v)]) from
      List.find?_cons_of_neg _ hp]
    exact ih h.2

/-- The record stored under `k` after `dict_set l k v` is `v`. -/
theorem find_dict_set (l : List (String × SentRecord)) (k : String)
    (v : SentRecord) :
    (dict_set l k v).find? (fun p => p.1 == k) = some (k, v) := by
  unfold dict_set
  split
  · rename_i h
    exact find_map_overwrite l k v h
  · rename_i h
    refine find_append_new l k v ?_
    cases hx : l.any (fun p => p.1 == k) with
    | false => rfl
    | true => exact absurd hx h

/-- C2: once `mark_game_as_sent` has recorded an identifier, no later
check — after any interleaving of marks, registrations and checks on the
same ledger state — emits a candidate with that identifier. -/
theorem no_reemission_after_mark (b : BotState) (id game_name now : String)
    (ops : List Op) (fetch : Option Snapshot) (g : FreeGame)
    (hg : g ∈ (get_free_games fetch
        (applyOps (mark_game_as_sent b id game_name now) ops)).1) :
    g.app_id ≠ id := by
  obtain ⟨item, hsome⟩ := mem_get_free_games hg
  have hid := (free_game_fields hsome).1
  have hnot := (free_game_conditions hsome).2.2.1
  have hsent : is_game_already_sent
      (applyOps (mark_game_as_sent b id game_name now) ops) id = true :=
    is_sent_applyOps ops (is_sent_after_mark b id game_name now)
  intro hEq
  rw [hid.symm.trans hEq] at hnot
  rw [hsent] at hnot
  exact Bool.noConfusion hnot

/-- C2 witness: after marking id 100, a run over a snapshot holding the
qualifying entry 200 emits `game200`, whose identifier is not 100. -/
theorem no_reemission_after_mark_witness : game200.app_id ≠ "100" :=
  no_reemission_after_mark (init_state none) "100" "N" "T" [] (some snap200)
    game200 (show game200 ∈ [game200] from List.mem_singleton_self game200)

/-- C3: saving the store and constructing a bot from the freshly written
document preserves the notified-identifier test on every identifier and
the recipient set exactly. -/
theorem store_roundtrip (b : BotState) :
    (∀ id : String,
      is_game_already_sent (init_state (some (save_sent_games b))) id =
        is_game_already_sent b id) ∧
    (init_state (some (save_sent_games b))).chat_ids = b.chat_ids := by
  constructor
  · intro id
    rfl
  · simp [init_state, load_sent_games, save_sent_games,
      Finset.sort_toFinset]

/-- C5 (amended): the ledger is append-only with respect to identifiers
— no operation ever removes one — but `mark_game_as_sent` called again
for an already-present identifier does overwrite its record with the new
display name and timestamp (there is no "already present" guard inside
the mark itself). -/
theorem ledger_append_only (b : BotState) (op : Op)
    (id game_name now : String)
    (h : is_game_already_sent b id = true) :
    is_game_already_sent (applyOp b op) id = true ∧
    ledger_record (mark_game_as_sent b id game_name now) id =
      some ⟨game_name, now⟩ := by
  refine ⟨is_sent_applyOp op h, ?_⟩
  simp only [ledger_record, mark_game_as_sent, Option.getD_some]
  rw [find_dict_set]
  rfl

/-- C5 counterexample: marking id 1 twice with different names and
timestamps overwrites the first record, so a created record does not
stay unchanged. -/
theorem mark_overwrites_counterexample :
    ledger_record (mark_game_as_sent (init_state none) "1" "A" "t1") "1" =
      some ⟨"A", "t1"⟩ ∧
    ledger_record (mark_game_as_sent
        (mark_game_as_sent (init_state none) "1" "A" "t1")
        "1" "B" "t2") "1" = some ⟨"B", "t2"⟩ ∧
    (⟨"A", "t1"⟩ : SentRecord) ≠ ⟨"B", "t2"⟩ := by
  decide

/-- C5 witness: with id 1 already recorded, a further mark keeps the key
present and stores the fresh record. -/
theorem ledger_append_only_witness :
    is_game_already_sent
      (applyOp (mark_game_as_sent (init_state none) "1" "A" "t1")
        (Op.markSent "1" "B" "t2")) "1" = true ∧
    ledger_record (mark_game_as_sent
        (mark_game_as_sent (init_state none) "1" "A" "t1")
        "1" "B" "t2") "1" = some ⟨"B", "t2"⟩ :=
  ledger_append_only (mark_game_as_sent (init_state none) "1" "A" "t1")
    (Op.markSent "1" "B" "t2") "1" "B" "t2" (by decide)

/-- C6: the newly-added report of `add_chat_id` is true iff the
identifier was absent; adding the same identifier twice reports "not
newly added" the second time and leaves exactly one entry for it in the
recipient set (as enumerated by the persisted list). -/
theorem add_chat_id_idempotent (b : BotState) (c : Int) :
    ((add_chat_id b c).1 = true ↔ c ∉ b.chat_ids) ∧
    (add_chat_id (add_chat_id b c).2 c).1 = false ∧
    (((add_chat_id (add_chat_id b c).2 c).2.chat_ids.sort
        (fun a b => a ≤ b)).count c = 1) := by
  refine ⟨by simp [add_chat_id], by simp [add_chat_id], ?_⟩
  have hset : (add_chat_id (add_chat_id b c).2 c).2.chat_ids =
      insert c b.chat_ids := by
    simp [add_chat_id, Finset.insert_idem]
  rw [hset]
  exact List.count_eq_one_of_mem (Finset.sort_nodup _ _)
    ((Finset.mem_sort _).mpr (Finset.mem_insert_self c _))

/-- A qualifying entry with identifier 100 used to build a duplicated
snapshot. -/
def item100dup : Item := ⟨some "100", some "D", some 100, some 0, some 500⟩

/-- A snapshot listing the same qualifying entry twice. -/
def snap_dup : Snapshot := ⟨some ⟨some [item100dup, item100dup]⟩⟩

/-- C4 counterexample: on a fresh state, a snapshot carrying the same
qualifying entry twice makes one invocation of `get_free_games` emit two
candidates with identifier 100 — the is-notified check reads a ledger
the filter never updates, so it cannot deduplicate within one run. -/
theorem duplicate_id_two_candidates :
    ((get_free_games (some snap_dup) (init_state none)).1.map
        (fun g => g.app_id)).count "100" = 2 := by
  decide

/-- C4 (amended): when the identifiers of the snapshot's item list are
pairwise distinct, a single invocation of `get_free_games` produces at
most one candidate per identifier (its identifier list is
duplicate-free); with repeated identifiers the filter emits one
candidate per qualifying occurrence. -/
theorem at_most_one_candidate_per_id (b : BotState) (items : List Item)
    (hnd : (items.map (fun item => item.id.getD "")).Nodup) :
    ((get_free_games (some ⟨some ⟨some items⟩⟩) b).1.map
        (fun g => g.app_id)).Nodup :=
  List.Nodup.sublist (filterMap_ids_sublist b items) hnd

/-- C4 witness: a two-entry snapshot with distinct identifiers yields a
duplicate-free candidate identifier list. -/
theorem at_most_one_candidate_per_id_witness :
    ((get_free_games (some ⟨some ⟨some [item200, item730]⟩⟩)
        (init_state none)).1.map (fun g => g.app_id)).Nodup :=
  at_most_one_candidate_per_id (init_state none) [item200, item730]
    (by decide)

/-- A qualifying entry with no name field: the placeholder is
synthesized. -/
def item777 : Item := ⟨some "777", none, some 100, some 0, some 250⟩

/-- The candidate produced for `item777`: placeholder name "Jeu 777",
URL built from the identifier, 250 minor units as 250 / 100 major
units. -/
def game777 : FreeGame :=
  ⟨"777", "Jeu " ++ "777", "https://store.steampowered.com/app/" ++ "777" ++ "/",
    ((250 : Int) : ℚ) / 100⟩

/-- C9: every produced candidate's fields come straight from its source
entry — the price in major units is the entry's minor-unit price divided
by 100, the name is the entry's name or the synthesized placeholder
"Jeu <identifier>" when absent, the URL is built from the identifier —
and the output preserves snapshot order: its identifier list is a
sublist (same relative order, no re-sorting) of the item list's
identifiers. -/
theorem candidate_fields_and_order (b : BotState) (items : List Item) :
    (∀ item g, free_game_of_item b item = some g →
      g.initial_price = (item.original_price.getD 0 : ℚ) / 100 ∧
      g.name = item.name.getD ("Jeu " ++ item.id.getD "") ∧
      g.url = "https://store.steampowered.com/app/" ++
        item.id.getD "" ++ "/") ∧
    List.Sublist
      ((get_free_games (some ⟨some ⟨some items⟩⟩) b).1.map
        (fun g => g.app_id))
      (items.map (fun item => item.id.getD "")) := by
  refine ⟨?_, filterMap_ids_sublist b items⟩
  intro item g hg
  obtain ⟨_, hname, hurl, hprice⟩ := free_game_fields hg
  exact ⟨hprice, hname, hurl⟩

/-- C9 witness: the nameless entry 777 produces a candidate priced
250 / 100 with placeholder name "Jeu 777" and a URL containing its
identifier. -/
theorem candidate_fields_and_order_witness :
    game777.initial_price = (item777.original_price.getD 0 : ℚ) / 100 ∧
    game777.name = item777.name.getD ("Jeu " ++ item777.id.getD "") ∧
    game777.url = "https://store.steampowered.com/app/" ++
      item777.id.getD "" ++ "/" :=
  (candidate_fields_and_order (init_state none) [item777]).1 item777 game777
    (show some game777 = some game777 from rfl)
